import Mathlib

/-
Verification of the Convex + Better Auth boilerplate data layer and auth UI.

The data layer (convex/users.ts, convex/example.ts, convex/auth.ts,
convex/schema.ts) is embedded shallowly: the Convex document store becomes an
explicit DB record of lists, Date.now() becomes an explicit timestamp
argument (Convex freezes Date.now within a mutation), document ids become a
counter, and a thrown ConvexError becomes Except.error.  Convex mutations are
transactional, so a mutation that throws performs no writes; accordingly a
rejected mutation returns Except.error and no new DB.  The caller identity
resolved by betterAuthComponent.getAuthUser / ctx.auth.getUserIdentity is an
Option String: none models an unauthenticated caller.
-/

namespace App

/-- A document of the tasks table (convex/schema.ts): text, isCompleted,
createdAt, and an optional userId link to the Better Auth user. -/
structure TaskRecord where
  id : Nat
  text : String
  isCompleted : Bool
  createdAt : Nat
  userId : Option String
deriving DecidableEq, Repr

/-- A document of the userPreferences table (convex/schema.ts): userId plus
optional theme, notifications, language, and the two timestamps. -/
structure PrefRecord where
  id : Nat
  userId : String
  theme : Option String
  notifications : Option Bool
  language : Option String
  createdAt : Nat
  updatedAt : Nat
deriving DecidableEq, Repr

/-- The Convex store restricted to the two tables the claims touch, with a
counter supplying fresh document ids. -/
structure DB where
  tasks : List TaskRecord
  userPreferences : List PrefRecord
  nextId : Nat
deriving DecidableEq, Repr

/-- JavaScript truthiness fallback on a string: s || d is d when s is the
empty string, else s. -/
def jsOrStr (s d : String) : String := if s = "" then d else s

/-- JavaScript || applied to an optional (possibly absent) string argument:
absent or empty falls back to the default. -/
def jsOrOptStr (s : Option String) (d : String) : String :=
  match s with
  | some v => jsOrStr v d
  | none => d

/-- JavaScript ?? applied to an optional boolean argument: only absence falls
back to the default (false is kept). -/
def jsNullishBool (b : Option Bool) (d : Bool) : Bool := b.getD d

/-- The arguments object of updateUserPreferences (convex/users.ts): three
optional fields; an absent field is simply not present in the object. -/
structure PrefArgs where
  theme : Option String
  notifications : Option Bool
  language : Option String
deriving DecidableEq, Repr

/-- The query .withIndex by_user_id .first() used throughout convex/users.ts:
first userPreferences document whose userId equals the given id. -/
def firstPrefFor (db : DB) (uid : String) : Option PrefRecord :=
  db.userPreferences.find? (fun p => decide (p.userId = uid))

/-- getCurrentUserPreferences (convex/users.ts): null when unauthenticated,
else the user id together with the (possibly null) preferences document. -/
def getCurrentUserPreferences (user : Option String) (db : DB) :
    Option (String × Option PrefRecord) :=
  match user with
  | none => none
  | some u => some (u, firstPrefFor db u)

/-- ctx.db.patch(existing, spread of args plus updatedAt): a supplied field
replaces the stored one, an absent field leaves it untouched. -/
def patchField {α : Type} (supplied old : Option α) : Option α :=
  match supplied with
  | some v => some v
  | none => old

/-- The patched preferences document produced by updateUserPreferences when a
document already exists. -/
def patchPrefRecord (p : PrefRecord) (args : PrefArgs) (now : Nat) : PrefRecord :=
  { p with
    theme := patchField args.theme p.theme
    notifications := patchField args.notifications p.notifications
    language := patchField args.language p.language
    updatedAt := now }

/-- updateUserPreferences (convex/users.ts): throws "Not authenticated"
without a caller; otherwise patches the first existing document for the
caller and returns its id, or inserts a new one built with
args.theme || "system", args.notifications ?? true, args.language || "en". -/
def updateUserPreferences (user : Option String) (args : PrefArgs) (db : DB)
    (now : Nat) : Except String (Nat × DB) :=
  match user with
  | none => Except.error "Not authenticated"
  | some u =>
    match firstPrefFor db u with
    | some existing =>
      Except.ok (existing.id,
        { db with userPreferences :=
            db.userPreferences.map (fun p =>
              if p.id = existing.id then patchPrefRecord p args now else p) })
    | none =>
      Except.ok (db.nextId,
        { db with
          userPreferences := db.userPreferences ++
            [{ id := db.nextId, userId := u,
               theme := some (jsOrOptStr args.theme "system"),
               notifications := some (jsNullishBool args.notifications true),
               language := some (jsOrOptStr args.language "en"),
               createdAt := now, updatedAt := now }],
          nextId := db.nextId + 1 })

/-- getUserTasks (convex/users.ts): empty list when unauthenticated, else the
tasks whose userId equals the caller id (index by_user). -/
def getUserTasks (user : Option String) (db : DB) : List TaskRecord :=
  match user with
  | none => []
  | some u => db.tasks.filter (fun t => decide (t.userId = some u))

/-- createTask (convex/users.ts): throws "Not authenticated" without a
caller, else inserts a task carrying the caller id as userId. -/
def createTask (user : Option String) (text : String) (db : DB) (now : Nat) :
    Except String (Nat × DB) :=
  match user with
  | none => Except.error "Not authenticated"
  | some u =>
    Except.ok (db.nextId,
      { db with
        tasks := db.tasks ++
          [{ id := db.nextId, text := text, isCompleted := false,
             createdAt := now, userId := some u }],
        nextId := db.nextId + 1 })

/-- getTasks (convex/example.ts): empty list when unauthenticated; for any
authenticated identity it returns every task in the table, unfiltered. -/
def getTasks (identity : Option String) (db : DB) : List TaskRecord :=
  match identity with
  | none => []
  | some _ => db.tasks

/-- addTask (convex/example.ts): throws "Not authenticated" without a caller,
else inserts a task with isCompleted args ?? false and no userId at all. -/
def addTask (identity : Option String) (text : String) (done : Option Bool)
    (db : DB) (now : Nat) : Except String (Nat × DB) :=
  match identity with
  | none => Except.error "Not authenticated"
  | some _ =>
    Except.ok (db.nextId,
      { db with
        tasks := db.tasks ++
          [{ id := db.nextId, text := text, isCompleted := done.getD false,
             createdAt := now, userId := none }],
        nextId := db.nextId + 1 })

/-- toggleTask (convex/example.ts): throws "Not authenticated" without a
caller, "Task not found" when the id resolves to no document, else flips the
isCompleted flag of that document. -/
def toggleTask (identity : Option String) (taskId : Nat) (db : DB) :
    Except String DB :=
  match identity with
  | none => Except.error "Not authenticated"
  | some _ =>
    match db.tasks.find? (fun t => decide (t.id = taskId)) with
    | none => Except.error "Task not found"
    | some _ =>
      Except.ok { db with tasks := db.tasks.map (fun t =>
          if t.id = taskId then { t with isCompleted := !t.isCompleted } else t) }

/-- onCreateUser (convex/auth.ts): inserts one userPreferences document for
the new identity, userId set to user.id || "", with the default theme
"system", notifications true, language "en", both timestamps Date.now(). -/
def onCreateUser (userId : String) (db : DB) (now : Nat) : Nat × DB :=
  (db.nextId,
   { db with
     userPreferences := db.userPreferences ++
       [{ id := db.nextId, userId := jsOrStr userId "",
          theme := some "system", notifications := some true,
          language := some "en", createdAt := now, updatedAt := now }],
     nextId := db.nextId + 1 })

/-- ctx.db.delete on a task id: every document with that id is removed. -/
def deleteTaskById (tasks : List TaskRecord) (tid : Nat) : List TaskRecord :=
  tasks.filter (fun t => decide (¬ t.id = tid))

/-- onDeleteUser (convex/auth.ts): deletes the first userPreferences document
whose userId matches, then collects every task whose userId field equals the
deleted id and deletes each one in a loop. -/
def onDeleteUser (userId : String) (db : DB) : DB :=
  let afterPrefs :=
    match db.userPreferences.find? (fun p => decide (p.userId = userId)) with
    | some p =>
      { db with userPreferences :=
          db.userPreferences.filter (fun q => decide (¬ q.id = p.id)) }
    | none => db
  let matched := afterPrefs.tasks.filter (fun t => decide (t.userId = some userId))
  { afterPrefs with
    tasks := matched.foldl (fun acc m => deleteTaskById acc m.id) afterPrefs.tasks }

/-- Well-formedness of the store as Convex guarantees it: document ids in the
tasks table are pairwise distinct. -/
def wfTasks (db : DB) : Prop := (db.tasks.map (fun t => t.id)).Nodup

/-- Well-formedness of the store as Convex guarantees it: document ids in the
userPreferences table are pairwise distinct. -/
def wfPrefs (db : DB) : Prop := (db.userPreferences.map (fun p => p.id)).Nodup

/-- The at-most-one-record-per-externalUserId invariant of the
userPreferences table. -/
def atMostOnePerUser (db : DB) : Prop :=
  (db.userPreferences.map (fun p => p.userId)).Nodup

instance (db : DB) : Decidable (wfTasks db) := by
  unfold wfTasks
  infer_instance

instance (db : DB) : Decidable (wfPrefs db) := by
  unfold wfPrefs
  infer_instance

instance (db : DB) : Decidable (atMostOnePerUser db) := by
  unfold atMostOnePerUser
  infer_instance

/-- The store with both tables empty. -/
def emptyDB : DB := { tasks := [], userPreferences := [], nextId := 0 }

/-- s || "" is s for every string s. -/
theorem jsOrStr_empty_default (s : String) : jsOrStr s "" = s := by
  unfold jsOrStr
  split <;> simp_all

/-- C1: every gated data operation invoked without an authenticated caller
returns null or an empty list for the reads (getCurrentUserPreferences,
getUserTasks, getTasks) and rejects with the generic message
"Not authenticated" for the writes (updateUserPreferences, createTask,
addTask, toggleTask); a rejected mutation yields no new store, so the store
is unchanged. -/
theorem unauthenticated_ops (db : DB) (args : PrefArgs) (text : String)
    (done : Option Bool) (tid now : Nat) :
    getCurrentUserPreferences none db = none ∧
    getUserTasks none db = [] ∧
    getTasks none db = [] ∧
    updateUserPreferences none args db now = Except.error "Not authenticated" ∧
    createTask none text db now = Except.error "Not authenticated" ∧
    addTask none text done db now = Except.error "Not authenticated" ∧
    toggleTask none tid db = Except.error "Not authenticated" :=
  ⟨rfl, rfl, rfl, rfl, rfl, rfl, rfl⟩

/-- C2: one invocation of onCreateUser inserts exactly one userPreferences
record, keyed by the identity id, with theme "system", notifications true,
language "en", and createdAt equal to updatedAt; nothing else changes. -/
theorem onCreateUser_inserts_defaults (uid : String) (db : DB) (now : Nat) :
    onCreateUser uid db now =
      (db.nextId,
       { db with
         userPreferences := db.userPreferences ++
           [{ id := db.nextId, userId := uid, theme := some "system",
              notifications := some true, language := some "en",
              createdAt := now, updatedAt := now }],
         nextId := db.nextId + 1 }) := by
  unfold onCreateUser
  rw [jsOrStr_empty_default]

/-- A store holding one preferences document, used to instantiate theorems
with hypotheses at a concrete input. -/
def dbOnePref : DB :=
  { tasks := [],
    userPreferences := [{ id := 3, userId := "u", theme := some "dark",
                          notifications := some false, language := some "fr",
                          createdAt := 1, updatedAt := 1 }],
    nextId := 4 }

/-- C3, counterexample: with no existing record, a caller supplying the empty
string as theme gets a record whose theme is "system", not the supplied "":
the insert branch uses JavaScript truthiness, so a supplied empty string is
not kept. -/
theorem updatePrefs_empty_supplied_counterexample :
    updateUserPreferences (some "u")
        { theme := some "", notifications := none, language := none } emptyDB 5 =
      Except.ok (0,
        { tasks := [],
          userPreferences :=
            [{ id := 0, userId := "u", theme := some "system",
               notifications := some true, language := some "en",
               createdAt := 5, updatedAt := 5 }],
          nextId := 1 }) ∧
    (some "system" : Option String) ≠ some "" :=
  ⟨rfl, by decide⟩

/-- C3, amended: updateUserPreferences has upsert semantics for an
authenticated caller: when a record exists for the caller it is patched in
place with the supplied fields and a refreshed updatedAt and its id is
returned; when none exists a record is inserted whose theme and language are
the supplied value if supplied and non-empty (JavaScript || sends an absent
or empty supplied string to the defaults "system" and "en") and whose
notifications is the supplied value if supplied (?? keeps false) and true
otherwise. -/
theorem updatePrefs_upsert (u : String) (args : PrefArgs) (db : DB) (now : Nat) :
    (∀ p, firstPrefFor db u = some p →
      updateUserPreferences (some u) args db now =
        Except.ok (p.id,
          { db with userPreferences := db.userPreferences.map (fun q =>
              if q.id = p.id then patchPrefRecord q args now else q) })) ∧
    (firstPrefFor db u = none →
      updateUserPreferences (some u) args db now =
        Except.ok (db.nextId,
          { db with
            userPreferences := db.userPreferences ++
              [{ id := db.nextId, userId := u,
                 theme := some (jsOrOptStr args.theme "system"),
                 notifications := some (jsNullishBool args.notifications true),
                 language := some (jsOrOptStr args.language "en"),
                 createdAt := now, updatedAt := now }],
            nextId := db.nextId + 1 })) := by
  constructor
  · intro p hp
    simp only [updateUserPreferences, hp]
  · intro hp
    simp only [updateUserPreferences, hp]

/-- C3, witness: the patch branch of updatePrefs_upsert at a concrete store
holding one record for the caller. -/
theorem updatePrefs_upsert_witness :
    updateUserPreferences (some "u")
        { theme := none, notifications := some true, language := none }
        dbOnePref 9 =
      Except.ok (3,
        { tasks := [],
          userPreferences :=
            [{ id := 3, userId := "u", theme := some "dark",
               notifications := some true, language := some "fr",
               createdAt := 1, updatedAt := 9 }],
          nextId := 4 }) := by
  have h := (updatePrefs_upsert "u"
      { theme := none, notifications := some true, language := none }
      dbOnePref 9).1
      { id := 3, userId := "u", theme := some "dark",
        notifications := some false, language := some "fr",
        createdAt := 1, updatedAt := 1 } rfl
  rw [h]
  rfl

/-- Patching preferences documents in place leaves the list of userIds of the
table unchanged. -/
theorem map_userId_patch (l : List PrefRecord) (pid : Nat) (args : PrefArgs)
    (now : Nat) :
    ((l.map (fun p => if p.id = pid then patchPrefRecord p args now else p)).map
      (fun p => p.userId)) = l.map (fun p => p.userId) := by
  induction l with
  | nil => rfl
  | cons a t ih =>
    simp only [List.map_cons, List.cons.injEq]
    exact ⟨by split <;> rfl, ih⟩

/-- When firstPrefFor finds nothing, no document of the table carries the
given userId. -/
theorem firstPrefFor_none (db : DB) (u : String)
    (h : firstPrefFor db u = none) :
    ∀ p ∈ db.userPreferences, p.userId ≠ u := by
  intro p hp
  have := List.find?_eq_none.mp h p hp
  simpa using this

/-- The userPreferences table after onDeleteUser is a sublist of the table
before. -/
theorem onDeleteUser_prefs_sub (uid : String) (db : DB) :
    ((onDeleteUser uid db).userPreferences).Sublist db.userPreferences := by
  unfold onDeleteUser
  cases h : db.userPreferences.find? (fun p => decide (p.userId = uid)) with
  | none => simp [h]
  | some p =>
    simp only [h]
    exact List.filter_sublist _

/-- C4: executed sequentially, the gated operations preserve the
at-most-one-preferences-record-per-user invariant: updateUserPreferences
preserves it, and when a record already exists for the caller it patches that
record, returns its id, and never grows the table; onCreateUser preserves it
for a fresh identity; onDeleteUser preserves it unconditionally. -/
theorem prefs_invariant_sequential (u : String) (args : PrefArgs) (db : DB)
    (now : Nat) :
    (atMostOnePerUser db →
      ∀ r db2, updateUserPreferences (some u) args db now = Except.ok (r, db2) →
        atMostOnePerUser db2) ∧
    (∀ p, firstPrefFor db u = some p →
      ∀ r db2, updateUserPreferences (some u) args db now = Except.ok (r, db2) →
        r = p.id ∧ db2.userPreferences.length = db.userPreferences.length) ∧
    ((∀ p ∈ db.userPreferences, p.userId ≠ u) → atMostOnePerUser db →
      atMostOnePerUser (onCreateUser u db now).2) ∧
    (atMostOnePerUser db → atMostOnePerUser (onDeleteUser u db)) := by
  refine ⟨?_, ?_, ?_, ?_⟩
  · intro hinv r db2 hok
    cases h : firstPrefFor db u with
    | some p =>
      have := (updatePrefs_upsert u args db now).1 p h
      rw [this] at hok
      cases hok
      unfold atMostOnePerUser at hinv ⊢
      rw [map_userId_patch]
      exact hinv
    | none =>
      have := (updatePrefs_upsert u args db now).2 h
      rw [this] at hok
      cases hok
      unfold atMostOnePerUser at hinv ⊢
      simp only [List.map_append, List.map_cons, List.map_nil]
      rw [List.nodup_append]
      refine ⟨hinv, List.nodup_singleton _, ?_⟩
      intro x hx hy
      simp only [List.mem_singleton] at hy
      rcases List.mem_map.mp hx with ⟨p, hp, hpu⟩
      exact firstPrefFor_none db u h p hp (hpu.trans hy)
  · intro p hp r db2 hok
    have := (updatePrefs_upsert u args db now).1 p hp
    rw [this] at hok
    cases hok
    exact ⟨rfl, by simp⟩
  · intro hfresh hinv
    rw [onCreateUser_inserts_defaults]
    unfold atMostOnePerUser at hinv ⊢
    simp only [List.map_append, List.map_cons, List.map_nil]
    rw [List.nodup_append]
    refine ⟨hinv, List.nodup_singleton _, ?_⟩
    intro x hx hy
    simp only [List.mem_singleton] at hy
    rcases List.mem_map.mp hx with ⟨q, hq, hqu⟩
    exact hfresh q hq (hqu.trans hy)
  · intro hinv
    unfold atMostOnePerUser at hinv ⊢
    exact List.Nodup.sublist (List.Sublist.map _ (onDeleteUser_prefs_sub u db)) hinv

/-- C4, witness: the invariant-preservation conjuncts applied to concrete
stores: a patch on dbOnePref and an insert for a fresh identity on emptyDB. -/
theorem prefs_invariant_sequential_witness :
    atMostOnePerUser
      { tasks := [],
        userPreferences :=
          [{ id := 3, userId := "u", theme := some "dark",
             notifications := some false, language := some "fr",
             createdAt := 1, updatedAt := 9 }],
        nextId := 4 } ∧
    atMostOnePerUser (onCreateUser "v" emptyDB 7).2 := by
  constructor
  · exact (prefs_invariant_sequential "u"
      { theme := none, notifications := none, language := none }
      dbOnePref 9).1 (by decide) 3 _ rfl
  · exact (prefs_invariant_sequential "v"
      { theme := none, notifications := none, language := none }
      emptyDB 7).2.2.1 (by intro p hp; simp [emptyDB] at hp) (by decide)

/-- Membership after the deletion loop of onDeleteUser: a task survives the
fold exactly when it was there before and its id matches none of the
collected documents. -/
theorem mem_foldl_delete (ms : List TaskRecord) (l : List TaskRecord)
    (t : TaskRecord) :
    t ∈ ms.foldl (fun acc m => deleteTaskById acc m.id) l ↔
      t ∈ l ∧ ∀ m ∈ ms, t.id ≠ m.id := by
  induction ms generalizing l with
  | nil => simp
  | cons m ms ih =>
    rw [List.foldl_cons, ih]
    simp only [deleteTaskById, List.mem_filter, decide_eq_true_eq,
      List.forall_mem_cons]
    tauto

/-- The tasks table after onDeleteUser: the preferences deletion leaves
tasks untouched, so the result is the deletion fold over the collected
matching tasks. -/
theorem onDeleteUser_tasks_eq (uid : String) (db : DB) :
    (onDeleteUser uid db).tasks =
      (db.tasks.filter (fun t => decide (t.userId = some uid))).foldl
        (fun acc m => deleteTaskById acc m.id) db.tasks := by
  unfold onDeleteUser
  cases h : db.userPreferences.find? (fun p => decide (p.userId = uid)) <;>
    simp [h]

/-- The userPreferences table after onDeleteUser: the first matching
document, if any, is removed by id. -/
theorem onDeleteUser_prefs_eq (uid : String) (db : DB) :
    (onDeleteUser uid db).userPreferences =
      match db.userPreferences.find? (fun p => decide (p.userId = uid)) with
      | some p => db.userPreferences.filter (fun q => decide (¬ q.id = p.id))
      | none => db.userPreferences := by
  unfold onDeleteUser
  cases h : db.userPreferences.find? (fun p => decide (p.userId = uid)) <;>
    simp [h]

/-- C5: onDeleteUser removes the matching UserPreferences record (afterwards
no preferences record carries the deleted id) and every task whose userId
field equals the deleted id, while every preferences record and every task
belonging to another user is still present. Hypotheses: document ids are
distinct in both tables (a store guarantee) and the at-most-one-record
invariant holds, so THE matching record is well defined. -/
theorem onDeleteUser_cascade (uid : String) (db : DB)
    (hw : wfTasks db) (hq : wfPrefs db) (hm : atMostOnePerUser db) :
    (∀ p ∈ (onDeleteUser uid db).userPreferences, p.userId ≠ uid) ∧
    (∀ p ∈ db.userPreferences, p.userId ≠ uid →
        p ∈ (onDeleteUser uid db).userPreferences) ∧
    (∀ t ∈ (onDeleteUser uid db).tasks, t.userId ≠ some uid) ∧
    (∀ t ∈ db.tasks, t.userId ≠ some uid → t ∈ (onDeleteUser uid db).tasks) := by
  have htasks := onDeleteUser_tasks_eq uid db
  have hprefs := onDeleteUser_prefs_eq uid db
  refine ⟨?_, ?_, ?_, ?_⟩
  · intro p hpmem
    rw [hprefs] at hpmem
    cases hfind : db.userPreferences.find? (fun p => decide (p.userId = uid)) with
    | none =>
      rw [hfind] at hpmem
      exact firstPrefFor_none db uid hfind p hpmem
    | some w =>
      rw [hfind] at hpmem
      rcases List.mem_filter.mp hpmem with ⟨hpin, hpid⟩
      rw [decide_eq_true_eq] at hpid
      intro hpu
      have hwin : w ∈ db.userPreferences := List.mem_of_find?_eq_some hfind
      have hwu : w.userId = uid := by
        have := List.find?_some hfind
        simpa using this
      have : p = w :=
        List.inj_on_of_nodup_map hm hpin hwin (hpu.trans hwu.symm)
      exact hpid (congrArg PrefRecord.id this)
  · intro p hpin hpu
    rw [hprefs]
    cases hfind : db.userPreferences.find? (fun p => decide (p.userId = uid)) with
    | none => exact hpin
    | some w =>
      refine List.mem_filter.mpr ⟨hpin, ?_⟩
      rw [decide_eq_true_eq]
      intro hpid
      have hwin : w ∈ db.userPreferences := List.mem_of_find?_eq_some hfind
      have hwu : w.userId = uid := by
        have := List.find?_some hfind
        simpa using this
      have : p = w := List.inj_on_of_nodup_map hq hpin hwin hpid
      exact hpu (this ▸ hwu)
  · intro t htmem
    rw [htasks] at htmem
    rcases (mem_foldl_delete _ _ _).mp htmem with ⟨htin, hall⟩
    intro htu
    have : t ∈ db.tasks.filter (fun t => decide (t.userId = some uid)) :=
      List.mem_filter.mpr ⟨htin, by simp [htu]⟩
    exact hall t this rfl
  · intro t htin htu
    rw [htasks]
    refine (mem_foldl_delete _ _ _).mpr ⟨htin, ?_⟩
    intro m hmmem
    rcases List.mem_filter.mp hmmem with ⟨hmin, hmu⟩
    rw [decide_eq_true_eq] at hmu
    intro hid
    have : t = m := List.inj_on_of_nodup_map hw htin hmin hid
    exact htu (this ▸ hmu)

/-- A store with two users' preferences and three tasks (one of them
ownerless), used to instantiate onDeleteUser_cascade concretely. -/
def dbTwoUsers : DB :=
  { tasks := [{ id := 0, text := "ta", isCompleted := false, createdAt := 0,
                userId := some "a" },
              { id := 1, text := "tb", isCompleted := true, createdAt := 0,
                userId := some "b" },
              { id := 2, text := "tn", isCompleted := false, createdAt := 0,
                userId := none }],
    userPreferences := [{ id := 3, userId := "a", theme := some "dark",
                          notifications := some true, language := some "en",
                          createdAt := 0, updatedAt := 0 },
                        { id := 4, userId := "b", theme := some "light",
                          notifications := some false, language := some "fr",
                          createdAt := 0, updatedAt := 0 }],
    nextId := 5 }

/-- C5, witness: deleting user a from the concrete two-user store removes
exactly the preferences record and task of a. -/
theorem onDeleteUser_cascade_witness :
    (∀ p ∈ (onDeleteUser "a" dbTwoUsers).userPreferences, p.userId ≠ "a") ∧
    (∀ p ∈ dbTwoUsers.userPreferences, p.userId ≠ "a" →
        p ∈ (onDeleteUser "a" dbTwoUsers).userPreferences) ∧
    (∀ t ∈ (onDeleteUser "a" dbTwoUsers).tasks, t.userId ≠ some "a") ∧
    (∀ t ∈ dbTwoUsers.tasks, t.userId ≠ some "a" →
        t ∈ (onDeleteUser "a" dbTwoUsers).tasks) :=
  onDeleteUser_cascade "a" dbTwoUsers (by decide) (by decide) (by decide)

/-- A store holding a single task owned by user v. -/
def dbTaskOfV : DB :=
  { tasks := [{ id := 0, text := "t", isCompleted := false, createdAt := 0,
                userId := some "v" }],
    userPreferences := [], nextId := 1 }

/-- C6, counterexample: task access is NOT scoped in every code path. The
demo query getTasks, called by the authenticated user u, returns the task
owned by v; and the demo mutation addTask, called by u, inserts a task with
no owner at all rather than recording u. -/
theorem task_scoping_counterexample :
    getTasks (some "u") dbTaskOfV =
      [{ id := 0, text := "t", isCompleted := false, createdAt := 0,
         userId := some "v" }] ∧
    (some "v" : Option String) ≠ some "u" ∧
    addTask (some "u") "x" none emptyDB 0 =
      Except.ok (0,
        { tasks := [{ id := 0, text := "x", isCompleted := false,
                      createdAt := 0, userId := none }],
          userPreferences := [], nextId := 1 }) ∧
    (none : Option String) ≠ some "u" :=
  ⟨rfl, by decide, rfl, by decide⟩

/-- C6, amended: identity scoping holds for getUserTasks and createTask: the
query returns exactly the tasks whose userId equals the caller id, and
createTask records the caller id as owner. The demo code paths are not
scoped: getTasks returns the whole tasks table for any authenticated caller
and addTask inserts its task with no userId. -/
theorem task_scoping_amended (u text : String) (done : Option Bool) (db : DB)
    (now : Nat) :
    (∀ t, t ∈ getUserTasks (some u) db ↔ t ∈ db.tasks ∧ t.userId = some u) ∧
    createTask (some u) text db now =
      Except.ok (db.nextId,
        { db with
          tasks := db.tasks ++
            [{ id := db.nextId, text := text, isCompleted := false,
               createdAt := now, userId := some u }],
          nextId := db.nextId + 1 }) ∧
    getTasks (some u) db = db.tasks ∧
    addTask (some u) text done db now =
      Except.ok (db.nextId,
        { db with
          tasks := db.tasks ++
            [{ id := db.nextId, text := text, isCompleted := done.getD false,
               createdAt := now, userId := none }],
          nextId := db.nextId + 1 }) := by
  refine ⟨?_, rfl, rfl, rfl⟩
  intro t
  simp [getUserTasks, List.mem_filter]

/-- C10: addTask inserts its task without any userId (the record carries
none); consequently a task whose userId is none is never an element of
getUserTasks for any caller, its creator included, and it survives the
onDeleteUser cascade of every deleted identity. -/
theorem addTask_orphan (u text : String) (done : Option Bool) (db : DB)
    (now : Nat) (t : TaskRecord) (ht : t.userId = none) :
    addTask (some u) text done db now =
      Except.ok (db.nextId,
        { db with
          tasks := db.tasks ++
            [{ id := db.nextId, text := text, isCompleted := done.getD false,
               createdAt := now, userId := none }],
          nextId := db.nextId + 1 }) ∧
    (∀ caller db2, t ∉ getUserTasks (some caller) db2) ∧
    (∀ uid db2, wfTasks db2 → t ∈ db2.tasks →
        t ∈ (onDeleteUser uid db2).tasks) := by
  refine ⟨rfl, ?_, ?_⟩
  · intro caller db2 hmem
    rcases List.mem_filter.mp hmem with ⟨_, hdec⟩
    rw [decide_eq_true_eq] at hdec
    rw [ht] at hdec
    exact Option.noConfusion hdec
  · intro uid db2 hw hin
    rw [onDeleteUser_tasks_eq]
    refine (mem_foldl_delete _ _ _).mpr ⟨hin, ?_⟩
    intro m hmmem hid
    rcases List.mem_filter.mp hmmem with ⟨hmin, hmu⟩
    rw [decide_eq_true_eq] at hmu
    have : t = m := List.inj_on_of_nodup_map hw hin hmin hid
    rw [this, hmu] at ht
    exact Option.noConfusion ht

/-- C10, witness: the ownerless task of the two-user store is invisible to
getUserTasks and survives the cascade when user a is deleted. -/
theorem addTask_orphan_witness :
    (∀ caller db2,
        ({ id := 2, text := "tn", isCompleted := false, createdAt := 0,
           userId := none } : TaskRecord) ∉ getUserTasks (some caller) db2) ∧
    ({ id := 2, text := "tn", isCompleted := false, createdAt := 0,
       userId := none } : TaskRecord) ∈ (onDeleteUser "a" dbTwoUsers).tasks := by
  have h := addTask_orphan "u" "x" none emptyDB 0
    { id := 2, text := "tn", isCompleted := false, createdAt := 0,
      userId := none } rfl
  exact ⟨h.2.1, h.2.2 "a" dbTwoUsers (by decide) (by decide)⟩

/-
The auth forms.  A submission is embedded as a pure function from the form
fields and the Session Store response to its observable outcome: whether a
network call was dispatched, which error string is displayed, and whether
the submission succeeded (no success means the session state stays
Unauthenticated).  The Session Store is opaque: its response is a parameter.
-/

/-- The Session Store response to a dispatched call: success, or an opaque
human-readable error message handed to the onError callback. -/
inductive StoreResult where
  | ok : StoreResult
  | err : String → StoreResult
deriving DecidableEq, Repr

/-- Observable outcome of one form submission. -/
structure FormOutcome where
  networkCall : Bool
  errorShown : Option String
  succeeded : Bool
deriving DecidableEq, Repr

/-- SignupForm.handleSubmit (src/components/auth/signup-form.tsx): a password
shorter than 8 characters sets an inline error and returns before any call;
otherwise the sign-up call is dispatched and a failure displays the returned
message, with ctx.error.message || a generic fallback. -/
def signupFormSubmit (name email password : String) (resp : StoreResult) :
    FormOutcome :=
  if password.length < 8 then
    { networkCall := false,
      errorShown := some "Password must be at least 8 characters long",
      succeeded := false }
  else
    match resp with
    | StoreResult.ok => { networkCall := true, errorShown := none, succeeded := true }
    | StoreResult.err m =>
      { networkCall := true, errorShown := some (jsOrStr m "Failed to create account"),
        succeeded := false }

/-- SigninForm.handleSubmit (src/components/auth/signin-form.tsx): no
client-side validation; dispatches the sign-in call and on failure displays
ctx.error.message || a generic fallback. -/
def signinFormSubmit (email password : String) (resp : StoreResult) :
    FormOutcome :=
  match resp with
  | StoreResult.ok => { networkCall := true, errorShown := none, succeeded := true }
  | StoreResult.err m =>
    { networkCall := true, errorShown := some (jsOrStr m "Invalid email or password"),
      succeeded := false }

/-- SignIn.handleSubmit of the auth-test page (src/app/auth-test/page.tsx):
both the sign-in branch and the sign-up branch dispatch unconditionally,
with no password-length check, and display ctx.error.message verbatim. -/
def authTestSubmit (showSignIn : Bool) (name email password : String)
    (resp : StoreResult) : FormOutcome :=
  match resp with
  | StoreResult.ok => { networkCall := true, errorShown := none, succeeded := true }
  | StoreResult.err m =>
    { networkCall := true, errorShown := some m, succeeded := false }

/-- C7, counterexample: the claim does not hold for every sign-up form in
the codebase: the sign-up branch of the auth-test page dispatches a network
call even for the 3-character password "abc". -/
theorem signup_length_check_counterexample :
    ("abc".length < 8) = True ∧
    (authTestSubmit false "Test User" "t1@example.com" "abc"
        StoreResult.ok).networkCall = true := by
  constructor
  · simp only [eq_iff_iff, iff_true]
    decide
  · rfl

/-- C7, amended: in the shared SignupForm component (the sign-up form of the
landing and signup pages) a sign-up submission with a password shorter than
8 characters dispatches no network call, shows the inline validation error,
and does not succeed, so the session state stays Unauthenticated; the
sign-up branch of the auth-test page performs no such check and dispatches
regardless of password length. -/
theorem signup_length_check_amended (name email password : String)
    (resp : StoreResult) (h : password.length < 8) :
    signupFormSubmit name email password resp =
      { networkCall := false,
        errorShown := some "Password must be at least 8 characters long",
        succeeded := false } ∧
    (authTestSubmit false name email password resp).networkCall = true := by
  constructor
  · unfold signupFormSubmit
    rw [if_pos h]
  · unfold authTestSubmit
    cases resp <;> rfl

/-- C7, witness: the amended theorem at the short password "abc". -/
theorem signup_length_check_witness :
    signupFormSubmit "Test User" "t1@example.com" "abc" StoreResult.ok =
      { networkCall := false,
        errorShown := some "Password must be at least 8 characters long",
        succeeded := false } :=
  (signup_length_check_amended "Test User" "t1@example.com" "abc"
    StoreResult.ok (by decide)).1

/-- C8, counterexample: the displayed string is not always the returned
message character for character: when the Session Store returns the empty
message, SigninForm displays the substituted fallback
"Invalid email or password" instead. -/
theorem verbatim_error_counterexample :
    (signinFormSubmit "t1@example.com" "pw" (StoreResult.err "")).errorShown =
      some "Invalid email or password" ∧
    "Invalid email or password" ≠ "" :=
  ⟨rfl, by decide⟩

/-- C8, amended: for every failed call whose returned message is non-empty,
the displayed error equals the returned message character for character, in
SigninForm, in SignupForm (once the password passes the length check), and
in both branches of the auth-test page; an empty returned message is
replaced by a per-form generic fallback in SigninForm and SignupForm (the
auth-test page displays even an empty message verbatim). -/
theorem verbatim_error_amended (name email password m : String)
    (hm : m ≠ "") (hp : ¬ password.length < 8) :
    (signinFormSubmit email password (StoreResult.err m)).errorShown = some m ∧
    (signupFormSubmit name email password (StoreResult.err m)).errorShown = some m ∧
    (∀ b : Bool,
      (authTestSubmit b name email password (StoreResult.err m)).errorShown =
        some m) := by
  refine ⟨?_, ?_, fun b => rfl⟩
  · simp only [signinFormSubmit, jsOrStr, if_neg hm]
  · simp only [signupFormSubmit, if_neg hp, jsOrStr, if_neg hm]

/-- C8, witness: the amended theorem at the concrete returned message
"Invalid password" and an 8-character password. -/
theorem verbatim_error_witness :
    (signinFormSubmit "t1@example.com" "Pass1234"
        (StoreResult.err "Invalid password")).errorShown =
      some "Invalid password" ∧
    (signupFormSubmit "Test User" "t1@example.com" "Pass1234"
        (StoreResult.err "Invalid password")).errorShown =
      some "Invalid password" := by
  have h := verbatim_error_amended "Test User" "t1@example.com" "Pass1234"
    "Invalid password" (by decide) (by decide)
  exact ⟨h.1, h.2.1⟩

/-
The Protected-View Gate.  The session state projected by the Session-State
Coordinator is a three-state value; the convex react wrappers Authenticated,
Unauthenticated and AuthLoading each render their children exactly when the
state matches (external library semantics, per the spec's Session-State
Coordinator contract).  A ProtectedRoute render is embedded as the list of
fragments it emits for a given state; it takes no input besides that state,
so by construction it performs no session validation of its own.
-/

/-- The three-state projection of the Session Store held by the
Session-State Coordinator. -/
inductive AuthState where
  | loading
  | authenticated
  | unauthenticated
deriving DecidableEq, Repr

/-- The distinct pieces of UI a ProtectedRoute can emit. -/
inductive Fragment where
  | childrenContent
  | loadingIndicator
  | redirectEffect
  | fallbackView
  | defaultUnauthView
deriving DecidableEq, Repr

/-- The AuthLoading wrapper: renders its content exactly in state Loading. -/
def authLoadingWrap (s : AuthState) (x : Fragment) : List Fragment :=
  if s = AuthState.loading then [x] else []

/-- The Authenticated wrapper: renders its content exactly in state
Authenticated. -/
def authenticatedWrap (s : AuthState) (x : Fragment) : List Fragment :=
  if s = AuthState.authenticated then [x] else []

/-- The Unauthenticated wrapper: renders its content exactly in state
Unauthenticated. -/
def unauthenticatedWrap (s : AuthState) (x : Fragment) : List Fragment :=
  if s = AuthState.unauthenticated then [x] else []

/-- The redirect variant of ProtectedRoute (src/app: first variant): a
loading indicator under AuthLoading, the UnauthenticatedRedirect component
(a router.push side effect) under Unauthenticated, the children under
Authenticated. -/
def protectedRouteRedirect (s : AuthState) : List Fragment :=
  authLoadingWrap s Fragment.loadingIndicator ++
  unauthenticatedWrap s Fragment.redirectEffect ++
  authenticatedWrap s Fragment.childrenContent

/-- The fallback variant of ProtectedRoute (src/app: second variant): a
loading indicator under AuthLoading, the supplied fallback (or the built-in
Authentication Required view) under Unauthenticated, the children under
Authenticated. -/
def protectedRouteFallback (s : AuthState) (hasFallback : Bool) : List Fragment :=
  authLoadingWrap s Fragment.loadingIndicator ++
  unauthenticatedWrap s
    (if hasFallback then Fragment.fallbackView else Fragment.defaultUnauthView) ++
  authenticatedWrap s Fragment.childrenContent

/-- C9: in both ProtectedRoute variants the protected children are rendered
exactly in state Authenticated (so never in Loading or Unauthenticated), the
loading indicator exactly in state Loading, and in state Unauthenticated the
redirect variant emits the redirect side effect while the fallback variant
emits the supplied fallback or its built-in unauthenticated view; the render
is a function of the coordinator state alone. -/
theorem protected_gate (s : AuthState) (hasFallback : Bool) :
    (Fragment.childrenContent ∈ protectedRouteRedirect s ↔
      s = AuthState.authenticated) ∧
    (Fragment.loadingIndicator ∈ protectedRouteRedirect s ↔
      s = AuthState.loading) ∧
    (Fragment.redirectEffect ∈ protectedRouteRedirect s ↔
      s = AuthState.unauthenticated) ∧
    (Fragment.childrenContent ∈ protectedRouteFallback s hasFallback ↔
      s = AuthState.authenticated) ∧
    (Fragment.loadingIndicator ∈ protectedRouteFallback s hasFallback ↔
      s = AuthState.loading) ∧
    ((if hasFallback then Fragment.fallbackView else Fragment.defaultUnauthView) ∈
        protectedRouteFallback s hasFallback ↔
      s = AuthState.unauthenticated) := by
  cases s <;> cases hasFallback <;>
    simp [protectedRouteRedirect, protectedRouteFallback, authLoadingWrap,
      authenticatedWrap, unauthenticatedWrap]

end App
